import Mathlib

/-!
Verification of the oksvg icon compositing and rasterization-output pipeline
(`svg_icon.go` and its sibling copy) against its specification.

Numeric model: the Go code computes with `float64`.  The main embedding below
uses exact rationals (`ℚ`), which agree with IEEE float64 arithmetic whenever
no overflow, underflow, rounding or division by zero occurs; the claims about
buffer dimensions and transform composition are settled in this model.  A
second, small embedding (`GFloat`, further down) models the IEEE special
values +Inf, -Inf and NaN exactly, and is used to settle the degenerate-viewbox
behaviour, where division by zero is the whole point.

Go's `int(f)` conversion truncates toward zero; `image.Rect(x0,y0,x1,y1)`
canonicalizes a rectangle by swapping coordinates when `x0 > x1` (resp.
`y0 > y1`), so an `image.NewRGBA(image.Rect(0,0,w,h))` buffer has dimensions
`(|w|, |h|)`.  Both are embedded below (`ratTrunc`, `imageRectDims`).
-/

namespace Oksvg

/-- Modelled from the spec: `rasterx.Matrix2D`, the affine matrix type of the
external rasterization engine (not under this repository's sources).  Per the
spec (§4.1 and glossary) it is a 2D affine transform; fields follow the
standard convention mapping a point (px, py) to
(A*px + C*py + E, B*px + D*py + F). -/
structure Matrix2D where
  A : ℚ
  B : ℚ
  C : ℚ
  D : ℚ
  E : ℚ
  F : ℚ
  deriving DecidableEq, Repr

attribute [ext] Matrix2D

/-- Modelled from the spec: matrix composition `a · b` of two affine
transforms (apply `b` first, then `a`), the standard affine product used by
the external engine's `Mult`. -/
def Matrix2D.Mult (a b : Matrix2D) : Matrix2D where
  A := a.A * b.A + a.C * b.B
  B := a.B * b.A + a.D * b.B
  C := a.A * b.C + a.C * b.D
  D := a.B * b.C + a.D * b.D
  E := a.A * b.E + a.C * b.F + a.E
  F := a.B * b.E + a.D * b.F + a.F

/-- Modelled from the spec: the identity affine transform (`rasterx.Identity`). -/
def Identity : Matrix2D := ⟨1, 0, 0, 1, 0, 0⟩

/-- Modelled from the spec: `a.Translate(x, y)` post-composes `a` with a pure
translation by (x, y). -/
def Matrix2D.Translate (a : Matrix2D) (x y : ℚ) : Matrix2D :=
  a.Mult ⟨1, 0, 0, 1, x, y⟩

/-- Modelled from the spec: `a.Scale(x, y)` post-composes `a` with a pure
axis-aligned scale by (x, y). -/
def Matrix2D.Scale (a : Matrix2D) (x y : ℚ) : Matrix2D :=
  a.Mult ⟨x, 0, 0, y, 0, 0⟩

/-- Pure translation matrix (used to state the spec's `Translate(tx,ty)`
factor in §4.1 independently of the engine's fluent API). -/
def translateM (x y : ℚ) : Matrix2D := ⟨1, 0, 0, 1, x, y⟩

/-- Pure scale matrix (the spec's `Scale(sw,sh)` factor in §4.1). -/
def scaleM (x y : ℚ) : Matrix2D := ⟨x, 0, 0, y, 0, 0⟩

/-- Modelled from the spec: a path element (`SvgPath`, defined elsewhere in
the repository, not under src/).  Rendering consumes paths read-only through
a narrow interface, so their contents are opaque here. -/
structure SvgPath where
  tag : ℕ
  deriving DecidableEq, Repr

/-- Modelled from the spec: a gradient resource (`rasterx.Gradient`), an
opaque named resource consumed read-only. -/
structure Gradient where
  tag : ℕ
  deriving DecidableEq, Repr

/-- Modelled from the spec: a parsed `definition` entry (repository code not
under src/), opaque here. -/
structure SvgDef where
  tag : ℕ
  deriving DecidableEq, Repr

/-- Modelled from the spec: a parsed style attribute map entry (repository
code not under src/), opaque here. -/
structure StyleAttribute where
  tag : ℕ
  deriving DecidableEq, Repr

/-- The `ViewBox` field of `SvgIcon`: the logical frame X, Y, W, H. -/
structure ViewBox where
  X : ℚ
  Y : ℚ
  W : ℚ
  H : ℚ
  deriving DecidableEq, Repr

/-- `SvgIcon` holds data from parsed SVGs (all fields of the Go struct; the
Go maps become association lists). -/
structure SvgIcon where
  ViewBox : ViewBox
  Titles : List String
  Descriptions : List String
  Grads : List (String × Gradient)
  Defs : List (String × List SvgDef)
  SVGPaths : List SvgPath
  Transform : Matrix2D
  classes : List (String × StyleAttribute)
  deriving DecidableEq, Repr

attribute [ext] SvgIcon

/-- `SetTarget` sets the `Transform` matrix to draw within the bounds of the
rectangle arguments:
`s.Transform = rasterx.Identity.Translate(x-s.ViewBox.X, y-s.ViewBox.Y).Scale(w/s.ViewBox.W, h/s.ViewBox.H)`.
It replaces the previous transform wholesale. -/
def SvgIcon.SetTarget (s : SvgIcon) (x y w h : ℚ) : SvgIcon :=
  let scaleW := w / s.ViewBox.W
  let scaleH := h / s.ViewBox.H
  { s with Transform :=
      (Identity.Translate (x - s.ViewBox.X) (y - s.ViewBox.Y)).Scale scaleW scaleH }

/-- Go `int(f)` conversion of a float: truncation toward zero. -/
def ratTrunc (q : ℚ) : ℤ :=
  if q < 0 then ⌈q⌉ else ⌊q⌋

/-- Dimensions of `image.Rect(0, 0, w, h)`: Go's `image.Rect` swaps
coordinates when given a negative extent, so the buffer is `|w| × |h|`. -/
def imageRectDims (w h : ℤ) : ℤ × ℤ :=
  (if w < 0 then -w else w, if h < 0 then -h else h)

/-- Everything a render call feeds to the external rasterizer: the buffer
dimensions handed to `image.NewRGBA` / `NewScannerGV` / `NewDasher`, and the
data `Draw` submits (the icon's paths in order, the shared transform, the
opacity).  The spec's pipeline (§5) is single-threaded and deterministic, so
the pixel buffer is a function of this record. -/
structure RenderOut where
  w : ℤ
  h : ℤ
  paths : List SvgPath
  transform : Matrix2D
  opacity : ℚ
  deriving DecidableEq, Repr

/-- The shared tail of every render: allocate a `w × h` RGBA buffer and draw
all paths with the icon's current transform at the given opacity
(`asImage` in the Go source; the dimension canonicalization is
`image.Rect`'s). -/
def SvgIcon.asImage (s : SvgIcon) (w h : ℤ) : RenderOut :=
  let dims := imageRectDims w h
  { w := dims.1, h := dims.2, paths := s.SVGPaths, transform := s.Transform, opacity := 1 }

/-- `AsImage(width, height)` from `svg_icon.go`: resolve sentinel sizes
(`width < 1` means natural width; `height < 1` means derive from the aspect
ratio), overwrite the transform via `SetTarget(0,0,width,height)`, then
rasterize into an `int(width) × int(height)` buffer.  Returns the mutated
icon together with the render. -/
def SvgIcon.AsImage (s : SvgIcon) (width height : ℚ) : SvgIcon × RenderOut :=
  let width := if width < 1 then s.ViewBox.W else width
  let height := if height < 1 then s.ViewBox.H * (width / s.ViewBox.W) else height
  let s := s.SetTarget 0 0 width height
  (s, s.asImage (ratTrunc width) (ratTrunc height))

/-- `AsImageResize(width, height)` from the sibling source file: identical
resolution policy and `SetTarget` side effect, rasterizing via `asImage`. -/
def SvgIcon.AsImageResize (s : SvgIcon) (width height : ℚ) : SvgIcon × RenderOut :=
  let width := if width < 1 then s.ViewBox.W else width
  let height := if height < 1 then s.ViewBox.H * (width / s.ViewBox.W) else height
  let s := s.SetTarget 0 0 width height
  (s, s.asImage (ratTrunc width) (ratTrunc height))

/-- The zero-argument `AsImage()` of the sibling source file: rasterize at
the icon's natural size `int(ViewBox.W) × int(ViewBox.H)`, without touching
the transform. -/
def SvgIcon.AsImageNatural (s : SvgIcon) : RenderOut :=
  s.asImage (ratTrunc s.ViewBox.W) (ratTrunc s.ViewBox.H)

/-- `TransformIcon(mtx)`: compose the supplied matrix onto the icon's current
transform, `s.Transform = mtx.Mult(s.Transform)`. -/
def SvgIcon.TransformIcon (s : SvgIcon) (mtx : Matrix2D) : SvgIcon :=
  { s with Transform := mtx.Mult s.Transform }

/-! The IEEE-exceptional-value model.  `GFloat` is a float64 with the finite
values idealized to exact rationals but the special values (+Inf, -Inf, NaN)
represented faithfully, together with the IEEE 754 rules for the arithmetic
the transform computation performs.  Division by a (positive) zero yields an
infinity with the usual sign rules, 0/0 yields NaN, and NaN is absorbing.
The viewbox dimensions parsed from an SVG are +0, so `fin 0` divides as +0
does. -/

inductive GFloat where
  | fin (q : ℚ)
  | inf
  | neginf
  | nan
  deriving DecidableEq, Repr

namespace GFloat

/-- IEEE 754 negation. -/
def gneg : GFloat → GFloat
  | fin q => fin (-q)
  | inf => neginf
  | neginf => inf
  | nan => nan

/-- IEEE 754 addition: infinities absorb finite values, opposite infinities
give NaN, NaN is absorbing. -/
def gadd : GFloat → GFloat → GFloat
  | fin a, fin b => fin (a + b)
  | fin _, inf => inf
  | fin _, neginf => neginf
  | inf, fin _ => inf
  | neginf, fin _ => neginf
  | inf, inf => inf
  | neginf, neginf => neginf
  | inf, neginf => nan
  | neginf, inf => nan
  | nan, _ => nan
  | _, nan => nan

/-- IEEE 754 subtraction. -/
def gsub (a b : GFloat) : GFloat := gadd a (gneg b)

/-- IEEE 754 multiplication: zero times an infinity is NaN, otherwise signs
multiply; NaN is absorbing. -/
def gmul : GFloat → GFloat → GFloat
  | fin a, fin b => fin (a * b)
  | fin a, inf => if 0 < a then inf else if a < 0 then neginf else nan
  | fin a, neginf => if 0 < a then neginf else if a < 0 then inf else nan
  | inf, fin b => if 0 < b then inf else if b < 0 then neginf else nan
  | neginf, fin b => if 0 < b then neginf else if b < 0 then inf else nan
  | inf, inf => inf
  | neginf, neginf => inf
  | inf, neginf => neginf
  | neginf, inf => neginf
  | nan, _ => nan
  | _, nan => nan

/-- IEEE 754 division for the cases the pipeline reaches: a nonzero finite
value divided by (+)zero is a signed infinity, 0/0 is NaN, infinities divided
by finite values keep their sign, inf/inf is NaN, NaN is absorbing. -/
def gdiv : GFloat → GFloat → GFloat
  | fin a, fin b =>
      if b = 0 then (if 0 < a then inf else if a < 0 then neginf else nan)
      else fin (a / b)
  | fin _, inf => fin 0
  | fin _, neginf => fin 0
  | inf, fin b => if 0 ≤ b then inf else neginf
  | neginf, fin b => if 0 ≤ b then neginf else inf
  | inf, inf => nan
  | inf, neginf => nan
  | neginf, inf => nan
  | neginf, neginf => nan
  | nan, _ => nan
  | _, nan => nan

end GFloat

/-- The affine matrix with float64 entries modelled as `GFloat` (same layout
as `Matrix2D`). -/
structure Matrix2DF where
  A : GFloat
  B : GFloat
  C : GFloat
  D : GFloat
  E : GFloat
  F : GFloat
  deriving DecidableEq, Repr

/-- Modelled from the spec: the external engine's `Mult` with the entry
arithmetic performed in IEEE float64 (same formula as `Matrix2D.Mult`). -/
def Matrix2DF.Mult (a b : Matrix2DF) : Matrix2DF where
  A := GFloat.gadd (GFloat.gmul a.A b.A) (GFloat.gmul a.C b.B)
  B := GFloat.gadd (GFloat.gmul a.B b.A) (GFloat.gmul a.D b.B)
  C := GFloat.gadd (GFloat.gmul a.A b.C) (GFloat.gmul a.C b.D)
  D := GFloat.gadd (GFloat.gmul a.B b.C) (GFloat.gmul a.D b.D)
  E := GFloat.gadd (GFloat.gadd (GFloat.gmul a.A b.E) (GFloat.gmul a.C b.F)) a.E
  F := GFloat.gadd (GFloat.gadd (GFloat.gmul a.B b.E) (GFloat.gmul a.D b.F)) a.F

/-- Modelled from the spec: `rasterx.Identity` over float64 entries. -/
def IdentityF : Matrix2DF :=
  ⟨.fin 1, .fin 0, .fin 0, .fin 1, .fin 0, .fin 0⟩

/-- Modelled from the spec: `a.Translate(x, y)` over float64 entries. -/
def Matrix2DF.Translate (a : Matrix2DF) (x y : GFloat) : Matrix2DF :=
  a.Mult ⟨.fin 1, .fin 0, .fin 0, .fin 1, x, y⟩

/-- Modelled from the spec: `a.Scale(x, y)` over float64 entries. -/
def Matrix2DF.Scale (a : Matrix2DF) (x y : GFloat) : Matrix2DF :=
  a.Mult ⟨x, .fin 0, .fin 0, y, .fin 0, .fin 0⟩

/-- The `ViewBox` frame with float64 entries. -/
structure ViewBoxF where
  X : GFloat
  Y : GFloat
  W : GFloat
  H : GFloat
  deriving DecidableEq, Repr

/-- The fields of `SvgIcon` that `SetTarget` reads or writes, with the
float64 entries modelled as `GFloat` (the remaining fields — titles, paths,
gradients, definitions, classes — are untouched by `SetTarget` and carry no
numeric content). -/
structure SvgIconF where
  ViewBox : ViewBoxF
  Transform : Matrix2DF
  deriving DecidableEq, Repr

/-- `SetTarget` with the float64 arithmetic modelled exactly: the same
statements as the Go body, `scaleW = w / ViewBox.W`, `scaleH = h / ViewBox.H`,
`Transform = Identity.Translate(x-ViewBox.X, y-ViewBox.Y).Scale(scaleW, scaleH)`.
Note the Go signature returns nothing: there is no error path, whatever the
viewbox contains. -/
def SvgIconF.SetTarget (s : SvgIconF) (x y w h : GFloat) : SvgIconF :=
  let scaleW := GFloat.gdiv w s.ViewBox.W
  let scaleH := GFloat.gdiv h s.ViewBox.H
  let t := IdentityF.Translate (GFloat.gsub x s.ViewBox.X) (GFloat.gsub y s.ViewBox.Y)
  { s with Transform := t.Scale scaleW scaleH }

/-! The Encoder/Writer model.  `saveImage` in the Go source acquires a file
handle with `os.Create` (returning the error on failure, before any handle
exists), registers `defer f.Close()`, encodes into a `bufio.Writer` (PNG or
JPEG by the `asPng` flag), returns on encode failure, flushes, returns on
flush failure, and returns nil on success; the deferred close runs on every
return after a successful create.  The model makes the environment's verdict
on each fallible step an explicit boolean input and records the sequence of
operations performed on the file. -/

/-- An operation performed on the destination file. -/
inductive FileOp where
  | create
  | encode (asPng : Bool)
  | flush
  | close
  deriving DecidableEq, Repr

/-- The distinguishable failures of `saveImage`: `os.Create` failure, encode
failure, flush failure. -/
inductive SaveError where
  | createError
  | encodeError
  | flushError
  deriving DecidableEq, Repr

/-- `saveImage(filePath, m, asPng)` as a function of the environment's
verdicts (`createOk`, `encodeOk`, `flushOk`): the Go control flow with
`defer f.Close()` appending a close to every exit path taken after a
successful create.  Returns the call's result and the file-operation trace. -/
def saveImage (filePath : String) (m : RenderOut)
    (createOk encodeOk flushOk asPng : Bool) :
    Except SaveError Unit × List FileOp :=
  let _ := filePath
  let _ := m
  if createOk = false then
    (.error .createError, [])
  else if encodeOk = false then
    (.error .encodeError, [.create, .encode asPng, .close])
  else if flushOk = false then
    (.error .flushError, [.create, .encode asPng, .flush, .close])
  else
    (.ok (), [.create, .encode asPng, .flush, .close])

/-- The width `AsImage` actually renders at: widths below 1 fall back to the
natural width `ViewBox.W` (the first `if` of the Go body). -/
def resolvedWidth (s : SvgIcon) (width : ℚ) : ℚ :=
  if width < 1 then s.ViewBox.W else width

/-- The height `AsImage` actually renders at: heights below 1 are derived
from the resolved width and the viewbox aspect ratio (the second `if` of the
Go body). -/
def resolvedHeight (s : SvgIcon) (width height : ℚ) : ℚ :=
  if height < 1 then s.ViewBox.H * (resolvedWidth s width / s.ViewBox.W) else height

/-- A concrete icon with a 10 × 10 viewbox at the origin and one path. -/
def icon10 : SvgIcon :=
  { ViewBox := ⟨0, 0, 10, 10⟩, Titles := [], Descriptions := [], Grads := [],
    Defs := [], SVGPaths := [⟨0⟩], Transform := Identity, classes := [] }

/-- A concrete icon with a 10 × 20 viewbox at the origin and one path. -/
def icon1020 : SvgIcon :=
  { ViewBox := ⟨0, 0, 10, 20⟩, Titles := [], Descriptions := [], Grads := [],
    Defs := [], SVGPaths := [⟨0⟩], Transform := Identity, classes := [] }

/-- A concrete icon (in the float-precision model) whose viewbox width is
zero — the degenerate geometry the spec's error taxonomy is about. -/
def iconF0 : SvgIconF :=
  { ViewBox := ⟨.fin 0, .fin 0, .fin 0, .fin 50⟩, Transform := IdentityF }

/-- A concrete render output, used as the pixel-buffer argument of the
`saveImage` examples. -/
def ren0 : RenderOut :=
  { w := 10, h := 10, paths := [⟨0⟩], transform := Identity, opacity := 1 }

/-- A concrete destination path for the `saveImage` examples. -/
def outPath : String :=
  "out.png"

/-! Helper lemmas shared by the claim theorems. -/

/-- Matrix composition is associative. -/
theorem Matrix2D.Mult_assoc (a b c : Matrix2D) :
    (a.Mult b).Mult c = a.Mult (b.Mult c) := by
  ext <;> simp [Matrix2D.Mult] <;> ring

/-- Go `int` conversion agrees with `floor` on nonnegative values. -/
theorem ratTrunc_of_nonneg (q : ℚ) (h : 0 ≤ q) : ratTrunc q = ⌊q⌋ := by
  simp [ratTrunc, not_lt.2 h]

/-! The claim theorems. -/

/-- C1 (counterexample): the claim fails for strictly positive fractional
target sizes.  `icon10` has viewbox 10 × 10 (both strictly positive) and the
target width 1/2 is strictly positive, yet `AsImage(1/2, 5)` returns a
buffer of width 10 — the natural width — not `floor(1/2) = 0`, because the
Go sentinel test is `width < 1`, not `width <= 0`. -/
theorem C1_counterexample :
    0 < icon10.ViewBox.W ∧ 0 < icon10.ViewBox.H ∧
    0 < (1 / 2 : ℚ) ∧ 0 < (5 : ℚ) ∧
    (icon10.AsImage (1 / 2) 5).2.w ≠ ⌊(1 / 2 : ℚ)⌋ := by
  refine ⟨by norm_num [icon10], by norm_num [icon10], by norm_num, by norm_num, ?_⟩
  norm_num [SvgIcon.AsImage, SvgIcon.SetTarget, SvgIcon.asImage, ratTrunc,
    imageRectDims, icon10]

/-- C1 (amended): for every icon with positive viewbox dimensions and every
target width and height that are at least 1, `AsImage` and `AsImageResize`
return a buffer of exactly `floor(w) × floor(h)` pixels, fractional sizes
truncating toward zero.  (Targets in (0, 1) are treated as the unspecified
sentinel by the `< 1` test and fall back to the resolution policy.) -/
theorem C1_buffer_dims (s : SvgIcon) (w h : ℚ)
    (hW : 0 < s.ViewBox.W) (hH : 0 < s.ViewBox.H) (hw : 1 ≤ w) (hh : 1 ≤ h) :
    ((s.AsImage w h).2.w = ⌊w⌋ ∧ (s.AsImage w h).2.h = ⌊h⌋) ∧
    ((s.AsImageResize w h).2.w = ⌊w⌋ ∧ (s.AsImageResize w h).2.h = ⌊h⌋) := by
  have hw1 : ¬ w < 1 := not_lt.2 hw
  have hh1 : ¬ h < 1 := not_lt.2 hh
  have hw0 : ¬ w < 0 := not_lt.2 (le_trans zero_le_one hw)
  have hh0 : ¬ h < 0 := not_lt.2 (le_trans zero_le_one hh)
  have hfw : ¬ (⌊w⌋ : ℤ) < 0 := not_lt.2 (Int.floor_nonneg.2 (le_trans zero_le_one hw))
  have hfh : ¬ (⌊h⌋ : ℤ) < 0 := not_lt.2 (Int.floor_nonneg.2 (le_trans zero_le_one hh))
  simp [SvgIcon.AsImage, SvgIcon.AsImageResize, SvgIcon.asImage, SvgIcon.SetTarget,
    ratTrunc, imageRectDims, hw1, hh1, hw0, hh0, hfw, hfh]

/-- C1 (witness): the amended dimension property at the concrete icon
`icon10` with target 2 × 3. -/
theorem C1_buffer_dims_witness :
    ((icon10.AsImage 2 3).2.w = ⌊(2 : ℚ)⌋ ∧ (icon10.AsImage 2 3).2.h = ⌊(3 : ℚ)⌋) ∧
    ((icon10.AsImageResize 2 3).2.w = ⌊(2 : ℚ)⌋ ∧
      (icon10.AsImageResize 2 3).2.h = ⌊(3 : ℚ)⌋) :=
  C1_buffer_dims icon10 2 3 (by norm_num [icon10]) (by norm_num [icon10])
    (by norm_num) (by norm_num)

/-- C2 (confirmed): `SetTarget(x, y, w, h)` unconditionally replaces the
icon's transform with the product
`Translate(x - ViewBox.X, y - ViewBox.Y) · Scale(w / ViewBox.W, h / ViewBox.H)`
— the pure translation matrix composed with the pure scale matrix, in that
order — and the result is independent of whatever transform was previously
stored (prior transforms are not factored in). -/
theorem C2_setTarget_replace (s : SvgIcon) (x y w h : ℚ) :
    s.SetTarget x y w h =
      { s with Transform := (Matrix2D.Mult (translateM (x - s.ViewBox.X) (y - s.ViewBox.Y)) (scaleM (w / s.ViewBox.W) (h / s.ViewBox.H))) } ∧
    (∀ M : Matrix2D, SvgIcon.SetTarget { s with Transform := M } x y w h =
      s.SetTarget x y w h) := by
  constructor
  · show SvgIcon.mk _ _ _ _ _ _ _ _ = SvgIcon.mk _ _ _ _ _ _ _ _
    congr 1
    ext <;>
      simp [Identity, Matrix2D.Translate, Matrix2D.Scale, Matrix2D.Mult,
        translateM, scaleM]
  · intro M
    rfl

/-- C5 (confirmed): with both sizes left unspecified (the -1 sentinel),
`AsImage(-1, -1)` — and likewise the zero-argument natural-size `AsImage()`
of the sibling file — returns a buffer of the natural size
`floor(ViewBox.W) × floor(ViewBox.H)`, with no scaling. -/
theorem C5_natural_size (s : SvgIcon)
    (hW : 0 < s.ViewBox.W) (hH : 0 < s.ViewBox.H) :
    ((s.AsImage (-1) (-1)).2.w = ⌊s.ViewBox.W⌋ ∧
      (s.AsImage (-1) (-1)).2.h = ⌊s.ViewBox.H⌋) ∧
    (s.AsImageNatural.w = ⌊s.ViewBox.W⌋ ∧ s.AsImageNatural.h = ⌊s.ViewBox.H⌋) := by
  have h1 : ((-1 : ℚ) < 1) := by norm_num
  have hWH : s.ViewBox.H * (s.ViewBox.W / s.ViewBox.W) = s.ViewBox.H := by
    rw [div_self (ne_of_gt hW), mul_one]
  have hW0 : ¬ s.ViewBox.W < 0 := not_lt.2 hW.le
  have hH0 : ¬ s.ViewBox.H < 0 := not_lt.2 hH.le
  have hfW : ¬ (⌊s.ViewBox.W⌋ : ℤ) < 0 := not_lt.2 (Int.floor_nonneg.2 hW.le)
  have hfH : ¬ (⌊s.ViewBox.H⌋ : ℤ) < 0 := not_lt.2 (Int.floor_nonneg.2 hH.le)
  simp [SvgIcon.AsImage, SvgIcon.AsImageNatural, SvgIcon.asImage, SvgIcon.SetTarget,
    ratTrunc, imageRectDims, h1, hWH, hW0, hH0, hfW, hfH]

/-- C5 (witness): the natural-size property at the concrete icon `icon1020`,
giving a 10 × 20 buffer. -/
theorem C5_natural_size_witness :
    ((icon1020.AsImage (-1) (-1)).2.w = ⌊icon1020.ViewBox.W⌋ ∧
      (icon1020.AsImage (-1) (-1)).2.h = ⌊icon1020.ViewBox.H⌋) ∧
    (icon1020.AsImageNatural.w = ⌊icon1020.ViewBox.W⌋ ∧
      icon1020.AsImageNatural.h = ⌊icon1020.ViewBox.H⌋) :=
  C5_natural_size icon1020 (by norm_num [icon1020]) (by norm_num [icon1020])

/-- C3 (counterexample): at the concrete icon `iconF0`, whose viewbox width
is zero, `SetTarget(0, 0, 100, 50)` does not produce any error — its Go
signature has no error path at all — and silently stores a transform whose
X-scale entry is +Inf (the IEEE result of 100 / 0.0), refuting the claim
that a DegenerateGeometry error is yielded and that a NaN/Inf-containing
transform is never silently produced. -/
theorem C3_counterexample :
    iconF0.ViewBox.W = GFloat.fin 0 ∧
    (iconF0.SetTarget (.fin 0) (.fin 0) (.fin 100) (.fin 50)).Transform.A =
      GFloat.inf := by
  constructor
  · norm_num [iconF0]
  · norm_num [SvgIconF.SetTarget, Matrix2DF.Translate, Matrix2DF.Scale,
      Matrix2DF.Mult, IdentityF, iconF0, GFloat.gdiv, GFloat.gmul, GFloat.gadd,
      GFloat.gsub, GFloat.gneg]

/-- C3 (amended): for every icon whose viewbox width is zero and every
positive finite target width, `SetTarget` silently replaces the transform
with a matrix whose X-scale entry is +Inf (IEEE division of a positive
finite float by +0); no DegenerateGeometry error exists anywhere in the
transform or render code paths — the functions are total and error-free by
their signatures. -/
theorem C3_degenerate_inf (s : SvgIconF) (x y h : GFloat) (q : ℚ)
    (hW : s.ViewBox.W = GFloat.fin 0) (hq : 0 < q) :
    (s.SetTarget x y (GFloat.fin q) h).Transform.A = GFloat.inf := by
  simp [SvgIconF.SetTarget, Matrix2DF.Translate, Matrix2DF.Scale, Matrix2DF.Mult,
    IdentityF, hW, GFloat.gdiv, GFloat.gmul, GFloat.gadd, hq]

/-- C3 (witness): the amended degenerate-viewbox behaviour at the concrete
icon `iconF0` with target width 100. -/
theorem C3_degenerate_inf_witness :
    iconF0.ViewBox.W = GFloat.fin 0 ∧ (0 : ℚ) < 100 ∧
    (iconF0.SetTarget (.fin 3) (.fin 4) (.fin 100) (.fin 50)).Transform.A =
      GFloat.inf :=
  ⟨by norm_num [iconF0], by norm_num,
    C3_degenerate_inf iconF0 (.fin 3) (.fin 4) (.fin 50) 100
      (by norm_num [iconF0]) (by norm_num)⟩

/-- C4 (counterexample): the claim fails for positive widths below 1.
`icon1020` has viewbox 10 × 20 and the requested width 1/2 is strictly
positive, yet `AsImage(1/2, -1)` falls back to the natural width (the Go
sentinel test is `width < 1`) and returns a buffer of height 20, not
`floor(20 * (1/2) / 10) = 1`. -/
theorem C4_counterexample :
    0 < icon1020.ViewBox.W ∧ 0 < (1 / 2 : ℚ) ∧
    (icon1020.AsImage (1 / 2) (-1)).2.h ≠
      ⌊icon1020.ViewBox.H * (1 / 2 : ℚ) / icon1020.ViewBox.W⌋ := by
  refine ⟨by norm_num [icon1020], by norm_num, ?_⟩
  norm_num [SvgIcon.AsImage, SvgIcon.SetTarget, SvgIcon.asImage, ratTrunc,
    imageRectDims, icon1020]

/-- C4 (amended): for every icon with viewbox width positive and viewbox
height nonnegative, and every requested width W that is at least 1,
rendering with the height left unspecified (`AsImage(W, -1)`, and likewise
`AsImageResize`) returns a buffer whose height is
`floor(ViewBox.H * W / ViewBox.W)` — the height derived from the resolved
width and the viewbox aspect ratio.  (Widths in (0, 1) are treated as the
unspecified sentinel by the `< 1` test.) -/
theorem C4_aspect_height (s : SvgIcon) (W : ℚ)
    (hW : 0 < s.ViewBox.W) (hH : 0 ≤ s.ViewBox.H) (hw : 1 ≤ W) :
    (s.AsImage W (-1)).2.h = ⌊s.ViewBox.H * W / s.ViewBox.W⌋ ∧
    (s.AsImageResize W (-1)).2.h = ⌊s.ViewBox.H * W / s.ViewBox.W⌋ := by
  have hw1 : ¬ W < 1 := not_lt.2 hw
  have h1 : ((-1 : ℚ) < 1) := by norm_num
  have hx : 0 ≤ s.ViewBox.H * (W / s.ViewBox.W) :=
    mul_nonneg hH (div_nonneg (le_trans zero_le_one hw) hW.le)
  have hx0 : ¬ s.ViewBox.H * (W / s.ViewBox.W) < 0 := not_lt.2 hx
  have hf : ¬ (⌊s.ViewBox.H * (W / s.ViewBox.W)⌋ : ℤ) < 0 :=
    not_lt.2 (Int.floor_nonneg.2 hx)
  constructor <;>
    · simp [SvgIcon.AsImage, SvgIcon.AsImageResize, SvgIcon.asImage,
        SvgIcon.SetTarget, ratTrunc, imageRectDims, hw1, h1, hx0, hf]
      rw [mul_div_assoc]

/-- C4 (witness): the amended aspect-preservation property at the concrete
icon `icon1020` with requested width 15, giving buffer height 30. -/
theorem C4_aspect_height_witness :
    (icon1020.AsImage 15 (-1)).2.h =
      ⌊icon1020.ViewBox.H * (15 : ℚ) / icon1020.ViewBox.W⌋ ∧
    (icon1020.AsImageResize 15 (-1)).2.h =
      ⌊icon1020.ViewBox.H * (15 : ℚ) / icon1020.ViewBox.W⌋ :=
  C4_aspect_height icon1020 15 (by norm_num [icon1020]) (by norm_num [icon1020])
    (by norm_num)

/-- C6 (confirmed): `TransformIcon(M)` sets the icon's transform to
`M.Mult(transform)` — the caller-supplied matrix left-multiplied onto the
current transform, so a previously set target mapping stays as the inner
factor — and leaves every other field of the icon unchanged. -/
theorem C6_transformIcon_left_mult (s : SvgIcon) (M : Matrix2D) :
    (s.TransformIcon M).Transform = M.Mult s.Transform ∧
    (s.TransformIcon M).ViewBox = s.ViewBox ∧
    (s.TransformIcon M).SVGPaths = s.SVGPaths ∧
    (s.TransformIcon M).Titles = s.Titles ∧
    (s.TransformIcon M).Descriptions = s.Descriptions ∧
    (s.TransformIcon M).Grads = s.Grads ∧
    (s.TransformIcon M).Defs = s.Defs ∧
    (s.TransformIcon M).classes = s.classes :=
  ⟨rfl, rfl, rfl, rfl, rfl, rfl, rfl, rfl⟩

/-- C7 (confirmed): applying M1 and then M2 with `TransformIcon` leaves the
icon in exactly the state a single `TransformIcon(M2.Mult(M1))` call
produces, from any starting transform — transform application composes by
matrix product in that order. -/
theorem C7_transform_composition (s : SvgIcon) (M1 M2 : Matrix2D) :
    (s.TransformIcon M1).TransformIcon M2 = s.TransformIcon (M2.Mult M1) := by
  show SvgIcon.mk _ _ _ _ _ _ _ _ = SvgIcon.mk _ _ _ _ _ _ _ _
  congr 1
  exact (Matrix2D.Mult_assoc M2 M1 s.Transform).symm

/-- C8 (confirmed): in the `saveImage` control-flow model, a successful
return happens only after the encode and the flush have both been performed
on the file, in that order, with the deferred close after them; and on every
path on which the file handle was acquired — success or error — the final
operation on the file is the close. -/
theorem C8_save_flush_close (filePath : String) (m : RenderOut)
    (createOk encodeOk flushOk asPng : Bool) :
    ((saveImage filePath m createOk encodeOk flushOk asPng).1 = .ok () →
      (saveImage filePath m createOk encodeOk flushOk asPng).2 =
        [.create, .encode asPng, .flush, .close]) ∧
    (FileOp.create ∈ (saveImage filePath m createOk encodeOk flushOk asPng).2 →
      (saveImage filePath m createOk encodeOk flushOk asPng).2.getLast? =
        some FileOp.close) := by
  cases createOk <;> cases encodeOk <;> cases flushOk <;>
    simp [saveImage, List.getLast?]

/-- C8 (witness): with every step succeeding, `saveImage` returns ok with
the trace create, encode, flush, close, whose last file operation is the
close. -/
theorem C8_save_flush_close_witness :
    (saveImage outPath ren0 true true true true).2 =
      [.create, .encode true, .flush, .close] ∧
    (saveImage outPath ren0 true true true true).2.getLast? =
      some FileOp.close :=
  ⟨(C8_save_flush_close outPath ren0 true true true true).1 (by simp [saveImage]),
    (C8_save_flush_close outPath ren0 true true true true).2 (by simp [saveImage])⟩

/-- C9 (confirmed): rendering is deterministic and self-stabilizing — a
second `AsImage` (resp. `AsImageResize`) call with the same arguments on the
icon the first call left behind submits exactly the same data to the
rasterizer (same buffer dimensions, same paths, same transform, same
opacity), hence produces a pixel-identical buffer, and leaves the icon in
the same state. -/
theorem C9_render_deterministic (s : SvgIcon) (w h : ℚ) :
    (((s.AsImage w h).1.AsImage w h).2 = (s.AsImage w h).2 ∧
      ((s.AsImage w h).1.AsImage w h).1 = (s.AsImage w h).1) ∧
    (((s.AsImageResize w h).1.AsImageResize w h).2 = (s.AsImageResize w h).2 ∧
      ((s.AsImageResize w h).1.AsImageResize w h).1 = (s.AsImageResize w h).1) :=
  ⟨⟨rfl, rfl⟩, ⟨rfl, rfl⟩⟩

/-- C10 (confirmed): a render call mutates the icon only through
`SetTarget(0, 0, resolvedWidth, resolvedHeight)` — the state `AsImage`
(resp. `AsImageResize`) returns is exactly that `SetTarget` result, and
every field other than `Transform` (viewbox, paths, titles, descriptions,
gradients, definitions, classes) is unchanged. -/
theorem C10_render_frame (s : SvgIcon) (w h : ℚ) :
    (s.AsImage w h).1 = s.SetTarget 0 0 (resolvedWidth s w) (resolvedHeight s w h) ∧
    (s.AsImageResize w h).1 =
      s.SetTarget 0 0 (resolvedWidth s w) (resolvedHeight s w h) ∧
    (s.AsImage w h).1.ViewBox = s.ViewBox ∧
    (s.AsImage w h).1.SVGPaths = s.SVGPaths ∧
    (s.AsImage w h).1.Titles = s.Titles ∧
    (s.AsImage w h).1.Descriptions = s.Descriptions ∧
    (s.AsImage w h).1.Grads = s.Grads ∧
    (s.AsImage w h).1.Defs = s.Defs ∧
    (s.AsImage w h).1.classes = s.classes :=
  ⟨rfl, rfl, rfl, rfl, rfl, rfl, rfl, rfl, rfl⟩

end Oksvg
